import Mathlib

/-!
Verification of the conversational bot gateway in src/main.py: a shallow
embedding of the conversation history store, the message dispatch path,
keyword routing, startup webhook registration, and the webhook endpoint,
together with theorems settling the specification claims.
-/

/-- Message roles used in the conversation history entries. -/
inductive Role
  | system
  | user
  | assistant
  deriving DecidableEq

/-- One history entry: a role tag plus text content. -/
structure Turn where
  role : Role
  content : String
  deriving DecidableEq

/-- The default system prompt installed on first contact
(src/main.py lines 60, 82, 100, 143). -/
def system_turn_default : Turn := ⟨Role.system, "You are a helpful AI assistant."⟩

/-- A user turn with the given text. -/
def userTurn (s : String) : Turn := ⟨Role.user, s⟩

/-- An assistant turn with the given text. -/
def assistantTurn (s : String) : Turn := ⟨Role.assistant, s⟩

/-- History cap from handle_message (src/main.py line 108). -/
def max_history_messages : Nat := 10

/-- Truncation step of handle_message (src/main.py lines 109-110): when the
history is longer than the cap plus the system entry, keep the first entry
plus the last ten. -/
def truncateHistory (h : List Turn) : List Turn :=
  if h.length > max_history_messages + 1 then
    h.take 1 ++ h.drop (h.length - max_history_messages)
  else h

/-- Error-path revert in handle_message (src/main.py lines 133-134): pop the
last entry only when the history is nonempty and its last role is user. -/
def revert_last_user_turn (h : List Turn) : List Turn :=
  match h.getLast? with
  | some t => if t.role = Role.user then h.dropLast else h
  | none => h

/-- Failure kinds a completion call can raise; the except clause in
handle_message (src/main.py line 129) catches them all alike. -/
inductive CompletionErrKind
  | transient
  | rejected
  | unauthenticated
  | fatal
  deriving DecidableEq

/-- The generic apology sent on a completion failure (src/main.py line 131). -/
def apologyText : String :=
  "Sorry, I encountered an error while processing your request. Please try again later."

/-- handle_message (src/main.py lines 89-134) acting on one conversation
history: empty text returns early; otherwise the user turn is appended and
the history truncated; on completion success the assistant reply is appended.
On completion failure the except block first sends the generic apology
(line 131) and only then pops the user turn (lines 133-134): when that
apology send itself raises, the pop is skipped, no reply is delivered, and
the user turn stays in the history; apologyOk records whether the apology
send succeeded. Returns the new history and the reply sent. -/
def handle_message (h : List Turn) (msg : String)
    (completion : Except CompletionErrKind String) (apologyOk : Bool) :
    List Turn × Option String :=
  if msg = "" then (h, none)
  else
    let h1 := truncateHistory (h ++ [userTurn msg])
    match completion with
    | Except.ok reply => (h1 ++ [assistantTurn reply], some reply)
    | Except.error _ =>
        if apologyOk then (revert_last_user_turn h1, some apologyText)
        else (h1, none)

/-- send_keyword_joke (src/main.py lines 137-167): on success only the
assistant joke is appended to the history (no user turn, no truncation);
on failure the history is unchanged. -/
def send_keyword_joke (h : List Turn) (result : Except Unit String) : List Turn :=
  match result with
  | Except.ok joke => h ++ [assistantTurn joke]
  | Except.error _ => h

/-- The user_conversations mapping (src/main.py line 49). -/
def Store : Type := Nat → Option (List Turn)

/-- Pointwise update of the conversation mapping. -/
def Store.update (s : Store) (uid : Nat) (h : List Turn) : Store :=
  fun k => if k = uid then some h else s k

/-- Read of user_conversations with lazy creation
(src/main.py lines 99-100, 142-143). -/
def get_or_create (s : Store) (uid : Nat) : List Turn :=
  match s uid with
  | some h => h
  | none => [system_turn_default]

/-- clear_chat (src/main.py lines 78-86): reset only when an entry exists,
otherwise reply that there is nothing to clear and leave the store alone. -/
def clear_chat (s : Store) (uid : Nat) : Store :=
  match s uid with
  | some _ => Store.update s uid [system_turn_default]
  | none => s

deriving instance DecidableEq for Except

/-- The handlers that touch a conversation history, as history transformers. -/
inductive Op
  | startCmd
  | helpCmd
  | clearCmd
  | message (msg : String) (completion : Except CompletionErrKind String) (apologyOk : Bool)
  | joke (result : Except Unit String)
  deriving DecidableEq

/-- Effect of each handler on one conversation history: the /start command
reinstalls the default history (src/main.py line 60), /help leaves it alone,
clear_chat resets it (line 82), text messages go through handle_message (with
the recorded apology-send outcome for the failure path), the joke keyword
through send_keyword_joke. -/
def applyOp (h : List Turn) : Op → List Turn
  | Op.startCmd => [system_turn_default]
  | Op.helpCmd => h
  | Op.clearCmd => [system_turn_default]
  | Op.message msg completion apologyOk => (handle_message h msg completion apologyOk).1
  | Op.joke result => send_keyword_joke h result

/-- A conversation history reached from first contact by a handler sequence. -/
def runOps (ops : List Op) : List Turn :=
  ops.foldl applyOp [system_turn_default]

/-- Case-insensitive whole-message match, modelling a message filter with an
anchored case-insensitive pattern (src/main.py lines 188-191). -/
def lowerEq (pat msg : String) : Bool :=
  msg.data.map Char.toLower == pat.data

/-- Command handler match (src/main.py lines 183-185): the first
whitespace-separated token of the message is the slash command. -/
def cmdMatch (cmd msg : String) : Bool :=
  msg.data.takeWhile (fun c => c != ' ') == '/' :: cmd.data

/-- Fallback filter, text and not command (src/main.py line 193): any text
that does not start with a slash. -/
def fallback_match (msg : String) : Bool :=
  match msg.data with
  | c :: _ => c != '/'
  | [] => true

/-- Handler table position chosen for a text message: handlers are tried in
registration order (src/main.py lines 183-193), first match wins; positions
3 to 6 are the keyword handlers and position 7 is the fallback. -/
def routeIdx (msg : String) : Option Nat :=
  if cmdMatch "start" msg then some 0
  else if cmdMatch "help" msg then some 1
  else if cmdMatch "clear_chat" msg then some 2
  else if lowerEq "tell me a joke" msg then some 3
  else if lowerEq "tell me a story" msg then some 4
  else if lowerEq "what can you do?" msg then some 5
  else if lowerEq "clear chat" msg then some 6
  else if fallback_match msg then some 7
  else none

/-- Desired webhook target built from the base url (src/main.py line 199). -/
def desiredUrl (base : String) : String := base ++ "/webhook"

/-- Startup webhook registration (src/main.py lines 197-205): set the webhook
only when the currently registered url differs from the desired one. Returns
the resulting registered url and how many set-webhook calls were made. -/
def startupWebhook (base registered : String) : String × Nat :=
  if registered ≠ desiredUrl base then (desiredUrl base, 1) else (registered, 0)

/-- HTTP statuses the webhook endpoint can answer with. -/
inductive HttpStatus
  | ok200
  | err500
  | err503
  deriving DecidableEq

/-- Terminal dispatch outcome recorded in the logs. -/
inductive Outcome
  | delivered
  | suppressed
  | failedCompletion
  | failedDelivery
  deriving DecidableEq

/-- Outcome of one handle_message dispatch given the completion result and
whether the reply send succeeded; completion failures and send failures are
absorbed inside the handler (src/main.py lines 113-134). -/
def dispatchOutcome (msg : String) (completion : Except CompletionErrKind String)
    (replyOk : Bool) : Outcome :=
  if msg = "" then Outcome.suppressed
  else
    match completion with
    | Except.ok _ => if replyOk then Outcome.delivered else Outcome.failedDelivery
    | Except.error _ => Outcome.failedCompletion

/-- POST handler telegram_webhook (src/main.py lines 232-248): 503 before the
application is initialized, 500 when the payload cannot be parsed, otherwise
the update is processed and the endpoint answers ok. Handler failures are
contained: handle_message catches completion and reply-send errors itself,
and when the apology send raises out of the except block the telegram
library routes the handler exception to error callbacks instead of raising
out of process_update, so neither reaches the endpoint; replyOk is the
send-success flag for replies to the chat, fed to the dispatch both as the
apology outcome and for the logged outcome. -/
def telegram_webhook (appReady : Bool) (payload : Option (List Turn × String))
    (completion : Except CompletionErrKind String) (replyOk : Bool) :
    HttpStatus × Option (List Turn × Outcome) :=
  if appReady then
    match payload with
    | none => (HttpStatus.err500, none)
    | some (h, msg) =>
        (HttpStatus.ok200,
          some ((handle_message h msg completion replyOk).1,
            dispatchOutcome msg completion replyOk))
  else (HttpStatus.err503, none)

/-- Number of non-system turns in a history. -/
def nonSystemCount (h : List Turn) : Nat :=
  (h.filter (fun t => !(t.role == Role.system))).length

/-! ### Shape lemmas about one handle_message dispatch -/

/-- Truncating a history of the shape system turn, old turns, one new turn
keeps the system turn in front and drops a prefix of the old turns. -/
theorem truncate_cons_append (t : List Turn) (u : Turn) :
    ∃ k, k ≤ t.length ∧
      truncateHistory (system_turn_default :: (t ++ [u])) =
        system_turn_default :: (t.drop k ++ [u]) := by
  unfold truncateHistory
  by_cases hlen : (system_turn_default :: (t ++ [u])).length > max_history_messages + 1
  · refine ⟨t.length - 9, Nat.sub_le _ _, ?_⟩
    rw [if_pos hlen]
    have hlen' : 11 < t.length + 2 := by
      simpa [max_history_messages] using hlen
    have hdroplen : (system_turn_default :: (t ++ [u])).length - max_history_messages
        = (t.length - 9) + 1 := by
      simp only [List.length_cons, List.length_append, List.length_cons,
        List.length_nil, max_history_messages]
      omega
    rw [hdroplen, List.drop_succ_cons,
      List.drop_append_of_le_length (by omega : t.length - 9 ≤ t.length)]
    simp
  · exact ⟨0, Nat.zero_le _, by rw [if_neg hlen]; simp⟩

/-- Reverting a history whose last entry is a user turn removes exactly it. -/
theorem revert_concat_user (l : List Turn) (s : String) :
    revert_last_user_turn (l ++ [userTurn s]) = l := by
  unfold revert_last_user_turn
  rw [List.getLast?_concat]
  simp [userTurn]

/-- Reverting a history whose last entry is not a user turn does nothing. -/
theorem revert_noop (l : List Turn) (x : Turn) (hl : l.getLast? = some x)
    (hx : x.role ≠ Role.user) : revert_last_user_turn l = l := by
  unfold revert_last_user_turn
  rw [hl]
  simp [hx]

/-- Successful dispatch: the history keeps the system turn, drops a prefix of
the old non-system turns, and gains the user and assistant turns at the end,
independently of the apology-send flag. -/
theorem handle_message_ok_shape (t : List Turn) (msg reply : String) (b : Bool)
    (hm : msg ≠ "") :
    ∃ k, k ≤ t.length ∧
      (handle_message (system_turn_default :: t) msg (Except.ok reply) b).1 =
        system_turn_default :: (t.drop k ++ [userTurn msg, assistantTurn reply]) := by
  obtain ⟨k, hk, heq⟩ := truncate_cons_append t (userTurn msg)
  refine ⟨k, hk, ?_⟩
  simp only [handle_message, if_neg hm, List.cons_append, heq]
  simp

/-- Failed dispatch: the history keeps the system turn and a suffix of the old
non-system turns; when the apology send succeeds the appended user turn is
removed again, and when it raises the pop is skipped and the user turn stays
at the end. -/
theorem handle_message_err_shape (t : List Turn) (msg : String)
    (e : CompletionErrKind) (hm : msg ≠ "") :
    ∃ k, k ≤ t.length ∧
      (handle_message (system_turn_default :: t) msg (Except.error e) true).1 =
        system_turn_default :: t.drop k ∧
      (handle_message (system_turn_default :: t) msg (Except.error e) false).1 =
        system_turn_default :: (t.drop k ++ [userTurn msg]) := by
  obtain ⟨k, hk, heq⟩ := truncate_cons_append t (userTurn msg)
  refine ⟨k, hk, ?_, ?_⟩
  · simp only [handle_message, if_neg hm, List.cons_append, heq]
    rw [if_true]
    exact revert_concat_user (system_turn_default :: t.drop k) msg
  · simp only [handle_message, if_neg hm, List.cons_append, heq]
    rfl

/-! ### Invariant machinery over handler sequences -/

/-- Every handler preserves the shape: default system turn first, no further
system turns. -/
theorem applyOp_inv (h : List Turn) (op : Op)
    (hh : ∃ t, h = system_turn_default :: t ∧ ∀ x ∈ t, x.role ≠ Role.system) :
    ∃ t, applyOp h op = system_turn_default :: t ∧ ∀ x ∈ t, x.role ≠ Role.system := by
  obtain ⟨t, rfl, hts⟩ := hh
  cases op with
  | startCmd => exact ⟨[], rfl, by simp⟩
  | helpCmd => exact ⟨t, rfl, hts⟩
  | clearCmd => exact ⟨[], rfl, by simp⟩
  | message msg completion apologyOk =>
      by_cases hm : msg = ""
      · subst hm
        exact ⟨t, by simp [applyOp, handle_message], hts⟩
      · cases completion with
        | ok reply =>
            obtain ⟨k, _, heq⟩ := handle_message_ok_shape t msg reply apologyOk hm
            refine ⟨t.drop k ++ [userTurn msg, assistantTurn reply],
              by simpa [applyOp] using heq, ?_⟩
            intro x hx
            rcases List.mem_append.mp hx with h1 | h2
            · exact hts x (List.mem_of_mem_drop h1)
            · rcases List.mem_cons.mp h2 with rfl | h3
              · simp [userTurn]
              · rcases List.mem_cons.mp h3 with rfl | h4
                · simp [assistantTurn]
                · simp at h4
        | error e =>
            obtain ⟨k, _, heqT, heqF⟩ := handle_message_err_shape t msg e hm
            cases apologyOk with
            | true =>
                exact ⟨t.drop k, by simpa [applyOp] using heqT,
                  fun x hx => hts x (List.mem_of_mem_drop hx)⟩
            | false =>
                refine ⟨t.drop k ++ [userTurn msg], by simpa [applyOp] using heqF, ?_⟩
                intro x hx
                rcases List.mem_append.mp hx with h1 | h2
                · exact hts x (List.mem_of_mem_drop h1)
                · rcases List.mem_cons.mp h2 with rfl | h3
                  · simp [userTurn]
                  · simp at h3
  | joke result =>
      cases result with
      | ok j =>
          refine ⟨t ++ [assistantTurn j], by simp [applyOp, send_keyword_joke], ?_⟩
          intro x hx
          rcases List.mem_append.mp hx with h1 | h2
          · exact hts x h1
          · rcases List.mem_cons.mp h2 with rfl | h3
            · simp [assistantTurn]
            · simp at h3
      | error u => exact ⟨t, by simp [applyOp, send_keyword_joke], hts⟩

/-- The shape invariant propagates through any fold of handlers. -/
theorem runOps_inv_aux (ops : List Op) (h : List Turn)
    (hh : ∃ t, h = system_turn_default :: t ∧ ∀ x ∈ t, x.role ≠ Role.system) :
    ∃ t, ops.foldl applyOp h = system_turn_default :: t ∧
      ∀ x ∈ t, x.role ≠ Role.system := by
  induction ops generalizing h with
  | nil => simpa using hh
  | cons op ops ih => exact ih _ (applyOp_inv h op hh)

/-! ### Claim theorems -/

/-- C7: for every sequence of handler operations on a conversation, the history
always contains exactly one system turn, that turn is at position 0, and it is
never evicted: every reachable history is the default system turn followed by
non-system turns only. -/
theorem C7_system_turn_invariant (ops : List Op) :
    ∃ t, runOps ops = system_turn_default :: t ∧ ∀ x ∈ t, x.role ≠ Role.system :=
  runOps_inv_aux ops [system_turn_default] ⟨[], rfl, by simp⟩

/-- Witness for C7 at a concrete operation sequence. -/
theorem C7_system_turn_invariant_witness :
    ∃ t, runOps [Op.message "hi" (Except.ok "hello") true, Op.joke (Except.ok "pun")] =
      system_turn_default :: t ∧ ∀ x ∈ t, x.role ≠ Role.system :=
  C7_system_turn_invariant
    [Op.message "hi" (Except.ok "hello") true, Op.joke (Except.ok "pun")]

/-- C2 counterexample: when the completion call fails and the apology send at
line 131 itself raises, the except block never reaches the pop at line 134,
so the appended user turn remains in the history after the dispatch. -/
theorem C2_counterexample :
    (handle_message [system_turn_default] "hi"
        (Except.error CompletionErrKind.transient) false).1 =
      [system_turn_default, userTurn "hi"] ∧
    userTurn "hi" ∈ (handle_message [system_turn_default] "hi"
        (Except.error CompletionErrKind.transient) false).1 := by
  refine ⟨by decide, by decide⟩

/-- C2 (amended): if the completion call fails after the user turn was
appended and the apologetic reply send succeeds, the history after the
dispatch is the system turn plus a suffix of the previous non-system turns,
so it no longer contains the appended user turn; if the apology send itself
raises, the pop is skipped and the appended user turn stays as the last
entry. The revert itself removes the most recent turn only when its role is
user, being a no-op otherwise. -/
theorem C2_revert_on_failure_amended (t : List Turn) (msg : String)
    (e : CompletionErrKind) (hm : msg ≠ "") (hmem : userTurn msg ∉ t)
    (l : List Turn) (x : Turn) (hl : l.getLast? = some x) (hx : x.role ≠ Role.user) :
    (∃ k, (handle_message (system_turn_default :: t) msg (Except.error e) true).1 =
        system_turn_default :: t.drop k) ∧
    userTurn msg ∉
      (handle_message (system_turn_default :: t) msg (Except.error e) true).1 ∧
    (∃ k, (handle_message (system_turn_default :: t) msg (Except.error e) false).1 =
        system_turn_default :: (t.drop k ++ [userTurn msg])) ∧
    revert_last_user_turn l = l := by
  obtain ⟨k, _, heqT, heqF⟩ := handle_message_err_shape t msg e hm
  refine ⟨⟨k, heqT⟩, ?_, ⟨k, heqF⟩, revert_noop l x hl hx⟩
  rw [heqT]
  intro hmemres
  rcases List.mem_cons.mp hmemres with h1 | h2
  · exact absurd (congrArg Turn.role h1) (by simp [userTurn, system_turn_default])
  · exact hmem (List.mem_of_mem_drop h2)

/-- Witness for the amended C2 at a concrete input. -/
theorem C2_revert_on_failure_witness :
    (∃ k, (handle_message [system_turn_default] "hi"
        (Except.error CompletionErrKind.transient) true).1 =
      system_turn_default :: List.drop k ([] : List Turn)) ∧
    userTurn "hi" ∉ (handle_message [system_turn_default] "hi"
        (Except.error CompletionErrKind.transient) true).1 ∧
    (∃ k, (handle_message [system_turn_default] "hi"
        (Except.error CompletionErrKind.transient) false).1 =
      system_turn_default :: (List.drop k ([] : List Turn) ++ [userTurn "hi"])) ∧
    revert_last_user_turn [system_turn_default] = [system_turn_default] :=
  C2_revert_on_failure_amended [] "hi" CompletionErrKind.transient (by decide) (by decide)
    [system_turn_default] system_turn_default (by decide) (by decide)

/-- C5: for every conversation identifier, existing or not, after clear_chat
the conversation history reads as exactly the default system turn. -/
theorem C5_clear_resets (s : Store) (uid : Nat) :
    get_or_create (clear_chat s uid) uid = [system_turn_default] := by
  unfold clear_chat
  cases hs : s uid with
  | none => simp [get_or_create, hs]
  | some h => simp [get_or_create, Store.update]

/-- C6 counterexample: a conversation with turns is reachable, and the /start
command, which is not the clear operation, resets it to the bare system turn,
destroying the previous turns. -/
theorem C6_counterexample :
    runOps [Op.message "hi" (Except.ok "hello") true] =
      [system_turn_default, userTurn "hi", assistantTurn "hello"] ∧
    applyOp [system_turn_default, userTurn "hi", assistantTurn "hello"] Op.startCmd =
      [system_turn_default] ∧
    [system_turn_default, userTurn "hi", assistantTurn "hello"] ≠ [system_turn_default] := by
  refine ⟨by decide, rfl, by decide⟩

/-- C6 (amended): besides clear, the /start command also resets a conversation
history to the single default system turn; every other operation leaves the
history as the system turn followed by a suffix of the previous non-system
turns (oldest evicted first) with zero or more turns appended at the end. -/
theorem C6_mutation_shape_amended (t : List Turn) (op : Op)
    (h1 : op ≠ Op.startCmd) (h2 : op ≠ Op.clearCmd) :
    ∃ k new, applyOp (system_turn_default :: t) op =
      system_turn_default :: (t.drop k ++ new) := by
  cases op with
  | startCmd => exact absurd rfl h1
  | clearCmd => exact absurd rfl h2
  | helpCmd => exact ⟨0, [], by simp [applyOp]⟩
  | message msg completion apologyOk =>
      by_cases hm : msg = ""
      · subst hm
        exact ⟨0, [], by simp [applyOp, handle_message]⟩
      · cases completion with
        | ok reply =>
            obtain ⟨k, _, heq⟩ := handle_message_ok_shape t msg reply apologyOk hm
            exact ⟨k, [userTurn msg, assistantTurn reply], by simpa [applyOp] using heq⟩
        | error e =>
            obtain ⟨k, _, heqT, heqF⟩ := handle_message_err_shape t msg e hm
            cases apologyOk with
            | true => exact ⟨k, [], by simpa [applyOp] using heqT⟩
            | false => exact ⟨k, [userTurn msg], by simpa [applyOp] using heqF⟩
  | joke result =>
      cases result with
      | ok j => exact ⟨0, [assistantTurn j], by simp [applyOp, send_keyword_joke]⟩
      | error u => exact ⟨0, [], by simp [applyOp, send_keyword_joke]⟩

/-- Witness for the amended C6 at a concrete input. -/
theorem C6_mutation_shape_witness :
    ∃ k new, applyOp (system_turn_default :: [userTurn "hi"]) (Op.joke (Except.ok "pun")) =
      system_turn_default :: (List.drop k [userTurn "hi"] ++ new) :=
  C6_mutation_shape_amended [userTurn "hi"] (Op.joke (Except.ok "pun"))
    (by decide) (by decide)

/-- C8 counterexample: a fatal completion failure is handled exactly like a
transient one, with the same generic apology reply and the user turn revert,
instead of propagating as a distinct fatal condition. -/
theorem C8_counterexample :
    handle_message [system_turn_default] "hello"
        (Except.error CompletionErrKind.fatal) true =
      handle_message [system_turn_default] "hello"
        (Except.error CompletionErrKind.transient) true ∧
    (handle_message [system_turn_default] "hello"
        (Except.error CompletionErrKind.fatal) true).2 =
      some apologyText := by
  refine ⟨rfl, by decide⟩

/-- C8 (amended): the dispatcher does not distinguish completion failure
subkinds; every failure kind, including unauthenticated and fatal, results in
the same history and the same reply for either apology-send outcome, and when
the apology send succeeds that reply is the generic apology. -/
theorem C8_uniform_failure_amended (h : List Turn) (msg : String)
    (k1 k2 : CompletionErrKind) (b : Bool) (hm : msg ≠ "") :
    handle_message h msg (Except.error k1) b = handle_message h msg (Except.error k2) b ∧
    (handle_message h msg (Except.error k1) true).2 = some apologyText := by
  constructor <;> simp [handle_message, hm]

/-- Witness for the amended C8 at a concrete input. -/
theorem C8_uniform_failure_witness :
    handle_message [system_turn_default] "hi"
        (Except.error CompletionErrKind.fatal) false =
      handle_message [system_turn_default] "hi"
        (Except.error CompletionErrKind.rejected) false ∧
    (handle_message [system_turn_default] "hi"
        (Except.error CompletionErrKind.fatal) true).2 = some apologyText :=
  C8_uniform_failure_amended [system_turn_default] "hi" CompletionErrKind.fatal
    CompletionErrKind.rejected false (by decide)

/-- C9: the webhook endpoint answers 500 exactly when the application is up
and the payload is unparseable, and answers 200 exactly when the application
is up and the payload parsed, whatever the completion outcome and whether the
reply send succeeded; handler-level failures never change the HTTP status. -/
theorem C9_webhook_status (appReady : Bool) (payload : Option (List Turn × String))
    (completion : Except CompletionErrKind String) (replyOk : Bool) :
    ((telegram_webhook appReady payload completion replyOk).1 = HttpStatus.err500 ↔
      appReady = true ∧ payload = none) ∧
    ((telegram_webhook appReady payload completion replyOk).1 = HttpStatus.ok200 ↔
      appReady = true ∧ payload.isSome = true) := by
  cases appReady <;> rcases payload with _ | ⟨ph, pmsg⟩ <;> simp [telegram_webhook]

/-- C10: a successful joke appends exactly the assistant joke turn, never the
user request and with no eviction, so a conversation at the cap ends up with
more non-system turns than the configured maximum of ten. -/
theorem C10_joke_append :
    (∀ (h : List Turn) (j : String),
      send_keyword_joke h (Except.ok j) = h ++ [assistantTurn j]) ∧
    max_history_messages <
      nonSystemCount (send_keyword_joke
        (runOps [Op.message "m1" (Except.ok "r1") true,
          Op.message "m2" (Except.ok "r2") true,
          Op.message "m3" (Except.ok "r3") true,
          Op.message "m4" (Except.ok "r4") true,
          Op.message "m5" (Except.ok "r5") true]) (Except.ok "a joke")) := by
  refine ⟨fun h j => rfl, by decide⟩

/-- C4 counterexample: when the registered url already equals the desired
target, the first startup performs zero set-webhook calls, not one. -/
theorem C4_counterexample :
    (startupWebhook "https://example.com" "https://example.com/webhook").2 = 0 ∧
    (startupWebhook "https://example.com" "https://example.com/webhook").2 ≠ 1 := by
  refine ⟨by decide, by decide⟩

/-- C4 (amended): a startup issues a set-webhook call exactly when the
registered url differs from the desired one, and a second startup after any
first startup issues zero calls; in particular two startups from an
already-correct url issue zero calls in total. -/
theorem C4_idempotent_registration_amended (base registered : String) :
    ((startupWebhook base registered).2 =
      if registered = desiredUrl base then 0 else 1) ∧
    (startupWebhook base (startupWebhook base registered).1).2 = 0 := by
  by_cases h : registered = desiredUrl base <;> simp [startupWebhook, h]

/-- C1 counterexample: appending 15 user/assistant pairs through
handle_message to a fresh conversation does not leave the system turn plus
the most recent 10 non-system turns; an 11th non-system turn survives. -/
theorem C1_counterexample :
    runOps [Op.message "m1" (Except.ok "r1") true,
      Op.message "m2" (Except.ok "r2") true,
      Op.message "m3" (Except.ok "r3") true,
      Op.message "m4" (Except.ok "r4") true,
      Op.message "m5" (Except.ok "r5") true,
      Op.message "m6" (Except.ok "r6") true,
      Op.message "m7" (Except.ok "r7") true,
      Op.message "m8" (Except.ok "r8") true,
      Op.message "m9" (Except.ok "r9") true,
      Op.message "m10" (Except.ok "r10") true,
      Op.message "m11" (Except.ok "r11") true,
      Op.message "m12" (Except.ok "r12") true,
      Op.message "m13" (Except.ok "r13") true,
      Op.message "m14" (Except.ok "r14") true,
      Op.message "m15" (Except.ok "r15") true] ≠
    [system_turn_default,
      userTurn "m11",
      assistantTurn "r11",
      userTurn "m12",
      assistantTurn "r12",
      userTurn "m13",
      assistantTurn "r13",
      userTurn "m14",
      assistantTurn "r14",
      userTurn "m15",
      assistantTurn "r15"] := by
  decide


/-- C1 (amended): appending 15 nonempty user/assistant turn pairs through the
message-handling path to a fresh conversation leaves exactly the system turn
plus the most recent 11 non-system turns, oldest evicted first: the cap of 10
is enforced when the user turn is appended, and the assistant reply appended
afterwards brings the count to 11. The apology-send flags are irrelevant on
the success path. -/
theorem C1_history_bound_amended
    (u1 u2 u3 u4 u5 u6 u7 u8 u9 u10 u11 u12 u13 u14 u15 r1 r2 r3 r4 r5 r6 r7 r8 r9 r10 r11 r12 r13 r14 r15 : String)
    (b1 b2 b3 b4 b5 b6 b7 b8 b9 b10 b11 b12 b13 b14 b15 : Bool)
    (h1 : u1 ≠ "")
    (h2 : u2 ≠ "")
    (h3 : u3 ≠ "")
    (h4 : u4 ≠ "")
    (h5 : u5 ≠ "")
    (h6 : u6 ≠ "")
    (h7 : u7 ≠ "")
    (h8 : u8 ≠ "")
    (h9 : u9 ≠ "")
    (h10 : u10 ≠ "")
    (h11 : u11 ≠ "")
    (h12 : u12 ≠ "")
    (h13 : u13 ≠ "")
    (h14 : u14 ≠ "")
    (h15 : u15 ≠ "") :
    runOps [Op.message u1 (Except.ok r1) b1,
      Op.message u2 (Except.ok r2) b2,
      Op.message u3 (Except.ok r3) b3,
      Op.message u4 (Except.ok r4) b4,
      Op.message u5 (Except.ok r5) b5,
      Op.message u6 (Except.ok r6) b6,
      Op.message u7 (Except.ok r7) b7,
      Op.message u8 (Except.ok r8) b8,
      Op.message u9 (Except.ok r9) b9,
      Op.message u10 (Except.ok r10) b10,
      Op.message u11 (Except.ok r11) b11,
      Op.message u12 (Except.ok r12) b12,
      Op.message u13 (Except.ok r13) b13,
      Op.message u14 (Except.ok r14) b14,
      Op.message u15 (Except.ok r15) b15] =
    [system_turn_default,
      assistantTurn r10,
      userTurn u11,
      assistantTurn r11,
      userTurn u12,
      assistantTurn r12,
      userTurn u13,
      assistantTurn r13,
      userTurn u14,
      assistantTurn r14,
      userTurn u15,
      assistantTurn r15] := by
  have s1 : applyOp [system_turn_default]
      (Op.message u1 (Except.ok r1) b1) =
      [system_turn_default,
      userTurn u1,
      assistantTurn r1] := by
    simp only [applyOp, handle_message, if_neg h1]
    rfl
  have s2 : applyOp [system_turn_default,
      userTurn u1,
      assistantTurn r1]
      (Op.message u2 (Except.ok r2) b2) =
      [system_turn_default,
      userTurn u1,
      assistantTurn r1,
      userTurn u2,
      assistantTurn r2] := by
    simp only [applyOp, handle_message, if_neg h2]
    rfl
  have s3 : applyOp [system_turn_default,
      userTurn u1,
      assistantTurn r1,
      userTurn u2,
      assistantTurn r2]
      (Op.message u3 (Except.ok r3) b3) =
      [system_turn_default,
      userTurn u1,
      assistantTurn r1,
      userTurn u2,
      assistantTurn r2,
      userTurn u3,
      assistantTurn r3] := by
    simp only [applyOp, handle_message, if_neg h3]
    rfl
  have s4 : applyOp [system_turn_default,
      userTurn u1,
      assistantTurn r1,
      userTurn u2,
      assistantTurn r2,
      userTurn u3,
      assistantTurn r3]
      (Op.message u4 (Except.ok r4) b4) =
      [system_turn_default,
      userTurn u1,
      assistantTurn r1,
      userTurn u2,
      assistantTurn r2,
      userTurn u3,
      assistantTurn r3,
      userTurn u4,
      assistantTurn r4] := by
    simp only [applyOp, handle_message, if_neg h4]
    rfl
  have s5 : applyOp [system_turn_default,
      userTurn u1,
      assistantTurn r1,
      userTurn u2,
      assistantTurn r2,
      userTurn u3,
      assistantTurn r3,
      userTurn u4,
      assistantTurn r4]
      (Op.message u5 (Except.ok r5) b5) =
      [system_turn_default,
      userTurn u1,
      assistantTurn r1,
      userTurn u2,
      assistantTurn r2,
      userTurn u3,
      assistantTurn r3,
      userTurn u4,
      assistantTurn r4,
      userTurn u5,
      assistantTurn r5] := by
    simp only [applyOp, handle_message, if_neg h5]
    rfl
  have s6 : applyOp [system_turn_default,
      userTurn u1,
      assistantTurn r1,
      userTurn u2,
      assistantTurn r2,
      userTurn u3,
      assistantTurn r3,
      userTurn u4,
      assistantTurn r4,
      userTurn u5,
      assistantTurn r5]
      (Op.message u6 (Except.ok r6) b6) =
      [system_turn_default,
      assistantTurn r1,
      userTurn u2,
      assistantTurn r2,
      userTurn u3,
      assistantTurn r3,
      userTurn u4,
      assistantTurn r4,
      userTurn u5,
      assistantTurn r5,
      userTurn u6,
      assistantTurn r6] := by
    simp only [applyOp, handle_message, if_neg h6]
    rfl
  have s7 : applyOp [system_turn_default,
      assistantTurn r1,
      userTurn u2,
      assistantTurn r2,
      userTurn u3,
      assistantTurn r3,
      userTurn u4,
      assistantTurn r4,
      userTurn u5,
      assistantTurn r5,
      userTurn u6,
      assistantTurn r6]
      (Op.message u7 (Except.ok r7) b7) =
      [system_turn_default,
      assistantTurn r2,
      userTurn u3,
      assistantTurn r3,
      userTurn u4,
      assistantTurn r4,
      userTurn u5,
      assistantTurn r5,
      userTurn u6,
      assistantTurn r6,
      userTurn u7,
      assistantTurn r7] := by
    simp only [applyOp, handle_message, if_neg h7]
    rfl
  have s8 : applyOp [system_turn_default,
      assistantTurn r2,
      userTurn u3,
      assistantTurn r3,
      userTurn u4,
      assistantTurn r4,
      userTurn u5,
      assistantTurn r5,
      userTurn u6,
      assistantTurn r6,
      userTurn u7,
      assistantTurn r7]
      (Op.message u8 (Except.ok r8) b8) =
      [system_turn_default,
      assistantTurn r3,
      userTurn u4,
      assistantTurn r4,
      userTurn u5,
      assistantTurn r5,
      userTurn u6,
      assistantTurn r6,
      userTurn u7,
      assistantTurn r7,
      userTurn u8,
      assistantTurn r8] := by
    simp only [applyOp, handle_message, if_neg h8]
    rfl
  have s9 : applyOp [system_turn_default,
      assistantTurn r3,
      userTurn u4,
      assistantTurn r4,
      userTurn u5,
      assistantTurn r5,
      userTurn u6,
      assistantTurn r6,
      userTurn u7,
      assistantTurn r7,
      userTurn u8,
      assistantTurn r8]
      (Op.message u9 (Except.ok r9) b9) =
      [system_turn_default,
      assistantTurn r4,
      userTurn u5,
      assistantTurn r5,
      userTurn u6,
      assistantTurn r6,
      userTurn u7,
      assistantTurn r7,
      userTurn u8,
      assistantTurn r8,
      userTurn u9,
      assistantTurn r9] := by
    simp only [applyOp, handle_message, if_neg h9]
    rfl
  have s10 : applyOp [system_turn_default,
      assistantTurn r4,
      userTurn u5,
      assistantTurn r5,
      userTurn u6,
      assistantTurn r6,
      userTurn u7,
      assistantTurn r7,
      userTurn u8,
      assistantTurn r8,
      userTurn u9,
      assistantTurn r9]
      (Op.message u10 (Except.ok r10) b10) =
      [system_turn_default,
      assistantTurn r5,
      userTurn u6,
      assistantTurn r6,
      userTurn u7,
      assistantTurn r7,
      userTurn u8,
      assistantTurn r8,
      userTurn u9,
      assistantTurn r9,
      userTurn u10,
      assistantTurn r10] := by
    simp only [applyOp, handle_message, if_neg h10]
    rfl
  have s11 : applyOp [system_turn_default,
      assistantTurn r5,
      userTurn u6,
      assistantTurn r6,
      userTurn u7,
      assistantTurn r7,
      userTurn u8,
      assistantTurn r8,
      userTurn u9,
      assistantTurn r9,
      userTurn u10,
      assistantTurn r10]
      (Op.message u11 (Except.ok r11) b11) =
      [system_turn_default,
      assistantTurn r6,
      userTurn u7,
      assistantTurn r7,
      userTurn u8,
      assistantTurn r8,
      userTurn u9,
      assistantTurn r9,
      userTurn u10,
      assistantTurn r10,
      userTurn u11,
      assistantTurn r11] := by
    simp only [applyOp, handle_message, if_neg h11]
    rfl
  have s12 : applyOp [system_turn_default,
      assistantTurn r6,
      userTurn u7,
      assistantTurn r7,
      userTurn u8,
      assistantTurn r8,
      userTurn u9,
      assistantTurn r9,
      userTurn u10,
      assistantTurn r10,
      userTurn u11,
      assistantTurn r11]
      (Op.message u12 (Except.ok r12) b12) =
      [system_turn_default,
      assistantTurn r7,
      userTurn u8,
      assistantTurn r8,
      userTurn u9,
      assistantTurn r9,
      userTurn u10,
      assistantTurn r10,
      userTurn u11,
      assistantTurn r11,
      userTurn u12,
      assistantTurn r12] := by
    simp only [applyOp, handle_message, if_neg h12]
    rfl
  have s13 : applyOp [system_turn_default,
      assistantTurn r7,
      userTurn u8,
      assistantTurn r8,
      userTurn u9,
      assistantTurn r9,
      userTurn u10,
      assistantTurn r10,
      userTurn u11,
      assistantTurn r11,
      userTurn u12,
      assistantTurn r12]
      (Op.message u13 (Except.ok r13) b13) =
      [system_turn_default,
      assistantTurn r8,
      userTurn u9,
      assistantTurn r9,
      userTurn u10,
      assistantTurn r10,
      userTurn u11,
      assistantTurn r11,
      userTurn u12,
      assistantTurn r12,
      userTurn u13,
      assistantTurn r13] := by
    simp only [applyOp, handle_message, if_neg h13]
    rfl
  have s14 : applyOp [system_turn_default,
      assistantTurn r8,
      userTurn u9,
      assistantTurn r9,
      userTurn u10,
      assistantTurn r10,
      userTurn u11,
      assistantTurn r11,
      userTurn u12,
      assistantTurn r12,
      userTurn u13,
      assistantTurn r13]
      (Op.message u14 (Except.ok r14) b14) =
      [system_turn_default,
      assistantTurn r9,
      userTurn u10,
      assistantTurn r10,
      userTurn u11,
      assistantTurn r11,
      userTurn u12,
      assistantTurn r12,
      userTurn u13,
      assistantTurn r13,
      userTurn u14,
      assistantTurn r14] := by
    simp only [applyOp, handle_message, if_neg h14]
    rfl
  have s15 : applyOp [system_turn_default,
      assistantTurn r9,
      userTurn u10,
      assistantTurn r10,
      userTurn u11,
      assistantTurn r11,
      userTurn u12,
      assistantTurn r12,
      userTurn u13,
      assistantTurn r13,
      userTurn u14,
      assistantTurn r14]
      (Op.message u15 (Except.ok r15) b15) =
      [system_turn_default,
      assistantTurn r10,
      userTurn u11,
      assistantTurn r11,
      userTurn u12,
      assistantTurn r12,
      userTurn u13,
      assistantTurn r13,
      userTurn u14,
      assistantTurn r14,
      userTurn u15,
      assistantTurn r15] := by
    simp only [applyOp, handle_message, if_neg h15]
    rfl
  simp only [runOps]
  rw [List.foldl_cons, s1, List.foldl_cons, s2, List.foldl_cons, s3, List.foldl_cons, s4, List.foldl_cons, s5, List.foldl_cons, s6, List.foldl_cons, s7, List.foldl_cons, s8, List.foldl_cons, s9, List.foldl_cons, s10, List.foldl_cons, s11, List.foldl_cons, s12, List.foldl_cons, s13, List.foldl_cons, s14, List.foldl_cons, s15, List.foldl_nil]


/-- Witness for the amended C1 at concrete messages. -/
theorem C1_history_bound_witness :
    runOps [Op.message "m1" (Except.ok "r1") true,
      Op.message "m2" (Except.ok "r2") true,
      Op.message "m3" (Except.ok "r3") true,
      Op.message "m4" (Except.ok "r4") true,
      Op.message "m5" (Except.ok "r5") true,
      Op.message "m6" (Except.ok "r6") true,
      Op.message "m7" (Except.ok "r7") true,
      Op.message "m8" (Except.ok "r8") true,
      Op.message "m9" (Except.ok "r9") true,
      Op.message "m10" (Except.ok "r10") true,
      Op.message "m11" (Except.ok "r11") true,
      Op.message "m12" (Except.ok "r12") true,
      Op.message "m13" (Except.ok "r13") true,
      Op.message "m14" (Except.ok "r14") true,
      Op.message "m15" (Except.ok "r15") true] =
    [system_turn_default,
      assistantTurn "r10",
      userTurn "m11",
      assistantTurn "r11",
      userTurn "m12",
      assistantTurn "r12",
      userTurn "m13",
      assistantTurn "r13",
      userTurn "m14",
      assistantTurn "r14",
      userTurn "m15",
      assistantTurn "r15"] :=
  C1_history_bound_amended "m1" "m2" "m3" "m4" "m5" "m6" "m7" "m8" "m9" "m10" "m11" "m12" "m13" "m14" "m15" "r1" "r2" "r3" "r4" "r5" "r6" "r7" "r8" "r9" "r10" "r11" "r12" "r13" "r14" "r15"
    true true true true true true true true true true true true true true true
    (by decide) (by decide) (by decide) (by decide) (by decide) (by decide) (by decide) (by decide) (by decide) (by decide) (by decide) (by decide) (by decide) (by decide) (by decide)

/-! ### Routing lemmas -/

/-- A character whose lowercase form is d cannot equal a character whose
lowercase form differs from d. -/
theorem ne_of_toLower {c d : Char} (h : Char.toLower c = d) (e : Char)
    (hde : Char.toLower e ≠ d) : c ≠ e := by
  rintro rfl
  exact hde h

/-- A message whose first character is neither a slash nor a space matches no
command handler. -/
theorem cmd_match_false_of_head (msg : String) (c : Char) (cs : List Char)
    (hmsg : msg.data = c :: cs) (hsl : c ≠ '/') (hsp : c ≠ ' ') (cmdStr : String) :
    cmdMatch cmdStr msg = false := by
  have htw : msg.data.takeWhile (fun ch => ch != ' ') =
      c :: cs.takeWhile (fun ch => ch != ' ') := by
    rw [hmsg, List.takeWhile_cons]
    simp [hsp]
  simp only [cmdMatch, htw]
  rw [beq_eq_false_iff_ne]
  intro hcontra
  injection hcontra with hhead _
  exact hsl hhead

/-- A case-insensitive whole-message match pins down the lowercase form of the
first character of the message. -/
theorem lowerEq_head (pat msg : String) (d : Char) (ds : List Char)
    (hpat : pat.data = d :: ds) (h : lowerEq pat msg = true) :
    ∃ c cs, msg.data = c :: cs ∧ Char.toLower c = d := by
  have heq : msg.data.map Char.toLower = pat.data := by
    simpa [lowerEq] using h
  rw [hpat] at heq
  cases hm : msg.data with
  | nil => rw [hm] at heq; simp at heq
  | cons c cs =>
      rw [hm, List.map_cons] at heq
      injection heq with hhead _
      exact ⟨c, cs, rfl, hhead⟩

/-- A message matching one whole-message pattern cannot match a different one. -/
theorem lowerEq_false_of_ne (msg pat1 pat2 : String) (h : lowerEq pat1 msg = true)
    (hne : (pat1.data == pat2.data) = false) : lowerEq pat2 msg = false := by
  have heq : msg.data.map Char.toLower = pat1.data := by
    simpa [lowerEq] using h
  simp only [lowerEq, heq]
  exact hne

/-- C3: a text message matching a registered keyword pattern is routed to that
keyword handler, in registration order with the first match winning, and never
to the fallback free-text handler at position 7. -/
theorem C3_keyword_precedence (msg : String) :
    (lowerEq "tell me a joke" msg = true →
      routeIdx msg = some 3 ∧ routeIdx msg ≠ some 7) ∧
    (lowerEq "tell me a story" msg = true →
      routeIdx msg = some 4 ∧ routeIdx msg ≠ some 7) ∧
    (lowerEq "what can you do?" msg = true →
      routeIdx msg = some 5 ∧ routeIdx msg ≠ some 7) ∧
    (lowerEq "clear chat" msg = true →
      routeIdx msg = some 6 ∧ routeIdx msg ≠ some 7) := by
  refine ⟨?_, ?_, ?_, ?_⟩
  · intro h
    obtain ⟨c, cs, hm, hc⟩ := lowerEq_head "tell me a joke" msg 't' _ rfl h
    have hcmd := cmd_match_false_of_head msg c cs hm
      (ne_of_toLower hc '/' (by decide)) (ne_of_toLower hc ' ' (by decide))
    simp [routeIdx, hcmd, h]
  · intro h
    obtain ⟨c, cs, hm, hc⟩ := lowerEq_head "tell me a story" msg 't' _ rfl h
    have hcmd := cmd_match_false_of_head msg c cs hm
      (ne_of_toLower hc '/' (by decide)) (ne_of_toLower hc ' ' (by decide))
    have hj := lowerEq_false_of_ne msg "tell me a story" "tell me a joke" h (by decide)
    simp [routeIdx, hcmd, hj, h]
  · intro h
    obtain ⟨c, cs, hm, hc⟩ := lowerEq_head "what can you do?" msg 'w' _ rfl h
    have hcmd := cmd_match_false_of_head msg c cs hm
      (ne_of_toLower hc '/' (by decide)) (ne_of_toLower hc ' ' (by decide))
    have hj := lowerEq_false_of_ne msg "what can you do?" "tell me a joke" h (by decide)
    have hs := lowerEq_false_of_ne msg "what can you do?" "tell me a story" h (by decide)
    simp [routeIdx, hcmd, hj, hs, h]
  · intro h
    obtain ⟨c, cs, hm, hc⟩ := lowerEq_head "clear chat" msg 'c' _ rfl h
    have hcmd := cmd_match_false_of_head msg c cs hm
      (ne_of_toLower hc '/' (by decide)) (ne_of_toLower hc ' ' (by decide))
    have hj := lowerEq_false_of_ne msg "clear chat" "tell me a joke" h (by decide)
    have hs := lowerEq_false_of_ne msg "clear chat" "tell me a story" h (by decide)
    have hw := lowerEq_false_of_ne msg "clear chat" "what can you do?" h (by decide)
    simp [routeIdx, hcmd, hj, hs, hw, h]

/-- Witness for C3 at a concrete mixed-case keyword message. -/
theorem C3_keyword_precedence_witness :
    routeIdx "Tell me a JOKE" = some 3 ∧ routeIdx "Tell me a JOKE" ≠ some 7 :=
  (C3_keyword_precedence "Tell me a JOKE").1 (by decide)
